import Mathlib

/-!
Verification of the TIN-Relay command shell (src/unnamed/part_000, src/index.js).

The JavaScript source is shallowly embedded:

* `CommandParamaters`, `Command`, the registry (`COMMANDS`), `getCommand`,
  `getNames`, `process`, `onEvent` and `fireHook` are translated directly.
* Mutable `config` state becomes explicit state passing (`Config`).
* Each lifecycle command handler becomes a pure function from the current
  `Config` (plus, for the asynchronous `open`/`write` completions, the
  error reported by the serial transport, `none` meaning success) to the
  updated `Config` and the ordered list of observable events the handler
  performs: transport operations, hook publications and response-callback
  invocations.
* JavaScript `undefined` arising from out-of-bounds array indexing is
  modelled with `Option String` (`none` = `undefined`); interpolating it
  into a template string yields the text `"undefined"`, as in JS.
* `line.split(" ")` is modelled by `jsSplit`, a structural recursion with
  JS semantics: split at every single space character, `""` ↦ `[""]`.
-/

/-- A command parameter, `{name, type, required}` (`Param` in the source). -/
structure Param where
  name : String
  type : String
  required : Bool
deriving DecidableEq, Repr

/-- `CommandParamaters` (sic): the parameters a command has. -/
structure CommandParamaters where
  params : List Param
deriving DecidableEq, Repr

/-- `CommandParamaters.toSting` (sic): required parameters render as
`<name: type>`, optional ones as `[name: type]`; rendered parameters are
joined with single spaces. -/
def CommandParamaters.toSting (cp : CommandParamaters) : String :=
  String.intercalate " "
    (cp.params.map (fun param =>
      String.join
        (if param.required then ["<", param.name, ": ", param.type, ">"]
         else ["[", param.name, ": ", param.type, "]"])))

/-- `CommandResponse`: `{name, status, data}`. `name` is `null` (`none`)
only in the fixed no-such-command sentinel. -/
structure CommandResponse where
  name : Option String
  status : Nat
  data : List String
deriving DecidableEq, Repr

/-- A registered command: its alias list (`name`, `name[0]` primary) and
parameter layout. The handler bodies are embedded separately as the
`…Handler` functions below; dispatch pairs them back up via `Dispatch.run`. -/
structure Command where
  name : List String
  params : CommandParamaters
deriving DecidableEq, Repr

/-- `Command.genResponse`. -/
def Command.genResponse (name : Option String) (status : Nat)
    (data : List String) : CommandResponse :=
  { name := name, status := status, data := data }

/-- `Command.ERR_NOCMD`, the fixed response for an unknown command. -/
def Command.ERR_NOCMD : CommandResponse :=
  Command.genResponse none 1 ["Error: No Command"]

/-- `Command.toString`: `[aliases.join("/"), params.toSting()].join(" ")`.
Note the trailing space this produces for a command with no parameters. -/
def Command.toString (c : Command) : String :=
  String.intercalate " " [String.intercalate "/" c.name, c.params.toSting]

/-- The registry `CommandManager.COMMANDS`: a JS object, i.e. an ordered
association list from canonical name to command (insertion order kept). -/
abbrev Registry := List (String × Command)

/-- Assignment `COMMANDS[key] = command` on a JS object: overwrite in place
if the key exists, else append. -/
def setKey (reg : Registry) (key : String) (c : Command) : Registry :=
  if reg.any (fun p => p.1 == key) then
    reg.map (fun p => if p.1 == key then (key, c) else p)
  else reg ++ [(key, c)]

/-- `CommandManager.registerCommand`: store under the primary alias
`command.name[0]` (every built-in has a non-empty alias list). -/
def registerCommand (reg : Registry) (c : Command) : Registry :=
  setKey reg (c.name.headD "") c

/-- `CommandManager.getCommand`: scan the registered commands in key order
and return the first whose alias list contains `nm`. -/
def getCommand : Registry → String → Option Command
  | [], _ => none
  | (_, c) :: rest, nm =>
      if c.name.contains nm then some c else getCommand rest nm

/-- `CommandManager.getNames`: the keys when `primary_only`, otherwise the
concatenation, per key, of the alias list of the command `getCommand`
finds for that key (`[]` stands for the unreachable lookup failure, which
in JS would throw). -/
def getNames (reg : Registry) (primary_only : Bool) : List String :=
  if primary_only then reg.map (fun p => p.1)
  else
    (reg.map (fun p => p.1)).flatMap (fun k =>
      match getCommand reg k with
      | some c => c.name
      | none => [])

/-- JS `line.split(" ")` on a character list: split at every single space,
no collapsing; the empty string yields `[""]`. -/
def jsSplitChars : List Char → List String
  | [] => [""]
  | c :: cs =>
      match jsSplitChars cs with
      | [] => [""]
      | t :: ts =>
          if c = ' ' then "" :: t :: ts
          else String.mk (c :: t.data) :: ts

/-- JS `line.split(" ")`. -/
def jsSplit (line : String) : List String :=
  jsSplitChars line.data

/-- The outcome of `CommandManager.process`: either the response callback
is invoked once with a fixed response and no handler runs, or a command's
handler is invoked with the argument tokens, or (unreachably for this
registry) `undefined.process(...)` would throw. -/
inductive Dispatch where
  | respond : CommandResponse → Dispatch
  | run : Command → List String → Dispatch
  | crash : Dispatch
deriving DecidableEq, Repr

/-- `CommandManager.process`: split the line, take token 0 as the command
name and the rest as parameters; unknown names get `ERR_NOCMD`, known ones
run the resolved command's handler. -/
def process (reg : Registry) (line : String) : Dispatch :=
  let cmd := (jsSplit line).headD ""
  let params := (jsSplit line).drop 1
  if (getNames reg false).contains cmd then
    match getCommand reg cmd with
    | some c => .run c params
    | none => .crash
  else .respond Command.ERR_NOCMD

/-- `CommandManager.onEvent`: append a `{hook, callback}` registration. -/
def onEvent {α : Type} (hooks : List (String × α)) (event : String)
    (callback : α) : List (String × α) :=
  hooks ++ [(event, callback)]

/-- `CommandManager.fireHook`: walk the registrations in order and invoke
every callback registered under exactly the fired name. The result lists
the invocations performed, in order, as (callback, data) pairs. -/
def fireHook {α β : Type} : List (String × α) → String → β → List (α × β)
  | [], _, _ => []
  | h :: rest, name, data =>
      if h.1 = name then (h.2, data) :: fireHook rest name data
      else fireHook rest name data

/-- A `SerialPort` handle as constructed by the lifecycle commands:
`new SerialPort({path, baudRate, autoOpen})`. The `path` is the value of
`args[0]`, which may be JS `undefined` (`none`). -/
structure SerialPort where
  path : Option String
  baudRate : Nat
  autoOpen : Bool
deriving DecidableEq, Repr

/-- The shared mutable `config` object from src/index.js:
`{init, ready, device, port}`. -/
structure Config where
  init : Bool
  ready : Bool
  device : Option String
  port : SerialPort
deriving DecidableEq, Repr

/-- The initial `config` from src/index.js: not initialized, not ready,
device `""`, port bound to `"COM1"` at baud rate 0. -/
def initialConfig : Config :=
  { init := false, ready := false, device := some ""
    port := { path := some "COM1", baudRate := 0, autoOpen := false } }

/-- JS string interpolation of a possibly-`undefined` value. -/
def jsStr : Option String → String
  | some s => s
  | none => "undefined"

/-- A hook payload as the handlers fire it: either a bare string
(`fireHook("write", msg)`) or an array of strings (all other hooks). -/
inductive HookPayload where
  | str : String → HookPayload
  | arr : List String → HookPayload
deriving DecidableEq, Repr

/-- One observable action of a handler: a transport operation, a hook
publication, a transport listener registration (`port.on(event, …)`), or
an invocation of the response callback. -/
inductive Ev where
  | hook : String → HookPayload → Ev
  | portOpen : Ev
  | portClose : Ev
  | portWrite : String → Ev
  | portOn : String → Ev
  | respond : CommandResponse → Ev
deriving DecidableEq, Repr

/-- `SerialSetCommand`'s handler: record `args[0]` as the device, set
`init`, replace the port with a fresh one bound to `args[0]` at baud rate
9600, fire `"set"` with the whole argument array, then respond status 0.
Note that `ready` is left untouched. -/
def setHandler (name : String) (config : Config) (args : List String) :
    Config × List Ev :=
  let d := args.get? 0
  let config :=
    { config with
        device := d, init := true
        port := { path := d, baudRate := 9600, autoOpen := false } }
  (config,
   [.hook "set" (.arr args),
    .respond ⟨some name, 0, ["Set serial device to [" ++ jsStr d ++ "]"]⟩])

/-- `SerialCloseCommand`'s handler: unless both `init` and `ready` hold,
respond status 2 "Already closed!"; otherwise clear `ready` and `init`,
close the port, fire `"close"` with `[]`, and respond status 0. -/
def closeHandler (name : String) (config : Config) : Config × List Ev :=
  if config.init = false ∨ config.ready = false then
    (config, [.respond ⟨some name, 2, ["Already closed!"]⟩])
  else
    ({ config with ready := false, init := false },
     [.portClose,
      .hook "close" (.arr []),
      .respond ⟨some name, 0,
        ["Closed serial device connection to [" ++ jsStr config.device ++
         "]. Please run set and start again!"]⟩])

/-- `SerialOpenCommand`'s handler. `oerr` is the error the transport later
passes to the `port.open` completion callback (`none` = success): the
handler issues `port.open`, registers the `"error"` and `"data"` transport
listeners, and the completion either reports status 1 with the transport
message (leaving `config` untouched) or sets `ready`, fires `"open"` with
the argument array and responds status 0. -/
def openHandler (name : String) (config : Config) (args : List String)
    (oerr : Option String) : Config × List Ev :=
  if config.init = false then
    (config, [.respond ⟨some name, 2, ["No serial device set!"]⟩])
  else if config.ready = true then
    (config, [.respond ⟨some name, 2, ["Already started!"]⟩])
  else
    match oerr with
    | some msg =>
        (config,
         [.portOpen, .portOn "error", .portOn "data",
          .respond ⟨some name, 1, ["Error on connection!", msg]⟩])
    | none =>
        ({ config with ready := true },
         [.portOpen, .portOn "error", .portOn "data",
          .hook "open" (.arr args),
          .respond ⟨some name, 0,
            ["Connection to [" ++ jsStr config.device ++ "] opened!"]⟩])

/-- `SerialWriteCommand`'s handler. `werr` is the error the transport
passes to the `port.write` completion callback (`none` = success): unless
both `init` and `ready` hold respond status 2 "Not ready!"; otherwise
write `args.join(" ")` to the port and, on success, fire `"write"` with
the bare message string and respond status 0. -/
def writeHandler (name : String) (config : Config) (args : List String)
    (werr : Option String) : Config × List Ev :=
  if config.init = false ∨ config.ready = false then
    (config, [.respond ⟨some name, 2, ["Not ready!"]⟩])
  else
    let msg := String.intercalate " " args
    match werr with
    | some err =>
        (config,
         [.portWrite msg,
          .respond ⟨some name, 1, ["Error on send!", err]⟩])
    | none =>
        (config,
         [.portWrite msg,
          .hook "write" (.str msg),
          .respond ⟨some name, 0, ["Message [" ++ msg ++ "] sent!"]⟩])

/-- `HelpCommand`'s handler. With an argument it renders that command's
usage via `getCommand(args[0]).toString()` — `none` models the TypeError
thrown (and the response callback never invoked) when the lookup yields
`undefined`. With no argument it renders one usage line per primary name. -/
def helpHandler (name : String) (reg : Registry) (args : List String) :
    Option (List Ev) :=
  match args.get? 0 with
  | some a =>
      match getCommand reg a with
      | some c =>
          some [.respond ⟨some name, 0,
            ["Usage for " ++ a ++ ": " ++ c.toString]⟩]
      | none => none
  | none =>
      ((getNames reg true).mapM (fun nm =>
        (getCommand reg nm).map (fun c =>
          "- Usage for " ++ nm ++ ": " ++ c.toString))).map
        (fun res => [.respond ⟨some name, 0, res⟩])

/-- The `HelpCommand` descriptor: aliases `help`/`h`, optional parameter
`[command: string]`. -/
def helpCmd : Command :=
  { name := ["help", "h"]
    params := ⟨[{ name := "command", type := "string", required := false }]⟩ }

/-- The `QuitCommand` descriptor: aliases `quit`/`q`/`exit`, no
parameters (its handler only calls `process.exit(0)`). -/
def quitCmd : Command :=
  { name := ["quit", "q", "exit"], params := ⟨[]⟩ }

/-- The `SerialSetCommand` descriptor: alias `set`, required parameter
`<device: string>`. -/
def setCmd : Command :=
  { name := ["set"]
    params := ⟨[{ name := "device", type := "string", required := true }]⟩ }

/-- The `SerialCloseCommand` descriptor: aliases `close`/`stop`. -/
def closeCmd : Command :=
  { name := ["close", "stop"], params := ⟨[]⟩ }

/-- The `SerialOpenCommand` descriptor: aliases `open`/`start`. -/
def openCmd : Command :=
  { name := ["open", "start"], params := ⟨[]⟩ }

/-- The `SerialWriteCommand` descriptor: aliases `write`/`w`/`send`,
required parameter `<message: string>`. -/
def writeCmd : Command :=
  { name := ["write", "w", "send"]
    params := ⟨[{ name := "message", type := "string", required := true }]⟩ }

/-- `CommandManager.COMMANDS` after the six `registerCommand` calls at the
bottom of the source file, in registration order. -/
def COMMANDS : Registry :=
  registerCommand
    (registerCommand
      (registerCommand
        (registerCommand
          (registerCommand (registerCommand [] helpCmd) quitCmd) setCmd)
        closeCmd)
      openCmd)
    writeCmd

/-- The connection-context invariant from the data model: `ready` implies
`initialized`. -/
def ConfigInv (c : Config) : Prop := c.ready = true → c.init = true

/-! ## Helper lemmas -/

/-- Folding `onEvent` over a subscription list appends it to the existing
registrations in order. -/
theorem foldl_onEvent {α : Type} (subs : List (String × α))
    (init : List (String × α)) :
    subs.foldl (fun hs s => onEvent hs s.1 s.2) init = init ++ subs := by
  induction subs generalizing init with
  | nil => simp
  | cons s rest ih =>
      rw [List.foldl_cons, ih]
      simp [onEvent]

/-- `fireHook` invokes exactly the callbacks registered under the fired
name, in registration order, each with the fired data. -/
theorem fireHook_eq_filter {α β : Type} (l : List (String × α))
    (name : String) (data : β) :
    fireHook l name data =
      (l.filter (fun h => h.1 == name)).map (fun h => (h.2, data)) := by
  induction l with
  | nil => rfl
  | cons h rest ih =>
      by_cases hh : h.1 = name <;> simp [fireHook, hh, ih]

/-! ## Claims -/

/-- C1 (counterexample): the set handler does not set the ready flag to
false — invoked with a device argument while `ready = true`, the
resulting context still has `ready = true`. -/
theorem set_keeps_ready_flag :
    ¬ ((setHandler "set"
        ⟨true, true, some "A", ⟨some "A", 9600, false⟩⟩ ["B"]).1.ready
      = false) := by decide

/-- C1 (amended): for every invocation of the set command with a device
argument present, the invocation succeeds with status 0, sets the
context's initialized flag to true while leaving its ready flag
unchanged, constructs a new transport handle bound to the given device
(baud rate 9600, not auto-opened), and publishes the `"set"` hook with
the argument list as payload. -/
theorem set_command_behavior (cfg : Config) (d : String) (rest : List String) :
    setHandler "set" cfg (d :: rest) =
      (⟨true, cfg.ready, some d, ⟨some d, 9600, false⟩⟩,
       [.hook "set" (.arr (d :: rest)),
        .respond ⟨some "set", 0, ["Set serial device to [" ++ d ++ "]"]⟩]) := by
  simp [setHandler, jsStr]

/-- C2: for every input line whose first whitespace-split token is not an
alias of any registered command (the thirteen aliases of the six
built-ins), dispatch invokes the response callback exactly once with the
fixed `ERR_NOCMD` response `{name := none, status := 1,
data := ["Error: No Command"]}` and never invokes any command handler
(`Dispatch.respond` is the callback-once-no-handler outcome). -/
theorem dispatch_unknown_token (line : String)
    (h : ((jsSplit line).headD "") ∉
      (["help", "h", "quit", "q", "exit", "set", "close", "stop",
        "open", "start", "write", "w", "send"] : List String)) :
    process COMMANDS line =
      .respond (Command.genResponse none 1 ["Error: No Command"]) := by
  have e : getNames COMMANDS false =
      ["help", "h", "quit", "q", "exit", "set", "close", "stop",
       "open", "start", "write", "w", "send"] := by decide
  have hc : (getNames COMMANDS false).contains ((jsSplit line).headD "")
      = false := by
    rw [e]
    simpa using h
  simp only [process]
  rw [hc]
  simp [Command.ERR_NOCMD, Command.genResponse]

/-- C2 (witness): the empty line's command token is the empty string,
which is not an alias, so it yields the fixed no-command response. -/
theorem dispatch_unknown_token_witness :
    process COMMANDS "" =
      .respond (Command.genResponse none 1 ["Error: No Command"]) :=
  dispatch_unknown_token "" (by decide)

/-- C3: the open command responds status 2 "No serial device set!" when
not initialized, status 2 "Already started!" when already ready, status 1
with the transport's error message on asynchronous open failure (the
context, in particular `ready`, unchanged — the state stays Configured),
and on asynchronous open success sets `ready` and publishes the `"open"`
hook. -/
theorem open_command_behavior (cfg : Config) (args : List String)
    (emsg : String) (oerr : Option String) :
    (cfg.init = false → openHandler "open" cfg args oerr =
        (cfg, [.respond ⟨some "open", 2, ["No serial device set!"]⟩])) ∧
    (cfg.init = true → cfg.ready = true → openHandler "open" cfg args oerr =
        (cfg, [.respond ⟨some "open", 2, ["Already started!"]⟩])) ∧
    (cfg.init = true → cfg.ready = false →
      openHandler "open" cfg args (some emsg) =
        (cfg, [.portOpen, .portOn "error", .portOn "data",
               .respond ⟨some "open", 1, ["Error on connection!", emsg]⟩])) ∧
    (cfg.init = true → cfg.ready = false →
      openHandler "open" cfg args none =
        (⟨true, true, cfg.device, cfg.port⟩,
         [.portOpen, .portOn "error", .portOn "data",
          .hook "open" (.arr args),
          .respond ⟨some "open", 0,
            ["Connection to [" ++ jsStr cfg.device ++ "] opened!"]⟩])) := by
  rcases cfg with ⟨i, r, d, p⟩
  refine ⟨?_, ?_, ?_, ?_⟩ <;> intro h1 <;> try intro h2
  all_goals simp_all [openHandler]

/-- C3 (witness): opening from the Configured state
`{init := true, ready := false}` with a successful transport open sets
`ready` and publishes the `"open"` hook. -/
theorem open_command_behavior_witness :
    openHandler "open" ⟨true, false, some "D", ⟨some "D", 9600, false⟩⟩ [] none =
      (⟨true, true, some "D", ⟨some "D", 9600, false⟩⟩,
       [.portOpen, .portOn "error", .portOn "data",
        .hook "open" (.arr []),
        .respond ⟨some "open", 0, ["Connection to [D] opened!"]⟩]) :=
  (open_command_behavior ⟨true, false, some "D", ⟨some "D", 9600, false⟩⟩
    [] "e" none).2.2.2 rfl rfl

/-- C4: when initialized and ready, the close command closes the
transport, clears `ready` and `init`, publishes `"close"` and responds
status 0; in every other state it responds status 2 "Already closed!"
and leaves every field of the context unchanged. -/
theorem close_command_behavior (cfg : Config) :
    (cfg.init = true → cfg.ready = true → closeHandler "close" cfg =
       (⟨false, false, cfg.device, cfg.port⟩,
        [.portClose, .hook "close" (.arr []),
         .respond ⟨some "close", 0,
           ["Closed serial device connection to [" ++ jsStr cfg.device ++
            "]. Please run set and start again!"]⟩])) ∧
    (¬ (cfg.init = true ∧ cfg.ready = true) → closeHandler "close" cfg =
       (cfg, [.respond ⟨some "close", 2, ["Already closed!"]⟩])) := by
  rcases cfg with ⟨i, r, d, p⟩
  constructor
  · intro h1 h2; simp_all [closeHandler]
  · intro h; cases i <;> cases r <;> simp_all [closeHandler]

/-- C4 (witness): close before any set/open responds status 2 and leaves
the initial context unchanged. -/
theorem close_command_behavior_witness :
    closeHandler "close" initialConfig =
      (initialConfig, [.respond ⟨some "close", 2, ["Already closed!"]⟩]) :=
  (close_command_behavior initialConfig).2 (by decide)

/-- C5 (counterexample): the write command fires the `"write"` hook with
the bare joined string as payload, not with an array containing it — at
a ready context with arguments `["a", "b"]` the full event list is
computed below, its only hook event has payload `.str "a b"`, and no
event at all is a hook with an array payload. -/
theorem write_hook_payload_is_bare_string :
    writeHandler "write" ⟨true, true, some "D", ⟨some "D", 9600, false⟩⟩
        ["a", "b"] none =
      (⟨true, true, some "D", ⟨some "D", 9600, false⟩⟩,
       [.portWrite "a b", .hook "write" (.str "a b"),
        .respond ⟨some "write", 0, ["Message [a b] sent!"]⟩]) ∧
    ((writeHandler "write" ⟨true, true, some "D", ⟨some "D", 9600, false⟩⟩
        ["a", "b"] none).2.all
      (fun e => match e with
        | .hook _ (.arr _) => false
        | _ => true)) = true := by decide

/-- C5 (amended): for every invocation of the write command while the
context is initialized and ready, the argument tokens are joined with a
single space into one message; exactly that string is passed to the
transport's write operation and, on transport success, published on the
`"write"` hook with the message string itself as the payload (not
wrapped in an array), and the command responds with status 0. -/
theorem write_command_behavior (cfg : Config) (args : List String)
    (h1 : cfg.init = true) (h2 : cfg.ready = true) :
    writeHandler "write" cfg args none =
      (cfg, [.portWrite (String.intercalate " " args),
             .hook "write" (.str (String.intercalate " " args)),
             .respond ⟨some "write", 0,
               ["Message [" ++ String.intercalate " " args ++ "] sent!"]⟩]) := by
  simp [writeHandler, h1, h2]

/-- C5 (witness): writing `a b` from a ready context passes exactly
`"a b"` to the transport and to the `"write"` hook. -/
theorem write_command_behavior_witness :
    writeHandler "write" ⟨true, true, some "D", ⟨some "D", 9600, false⟩⟩
        ["a", "b"] none =
      (⟨true, true, some "D", ⟨some "D", 9600, false⟩⟩,
       [.portWrite "a b", .hook "write" (.str "a b"),
        .respond ⟨some "write", 0, ["Message [a b] sent!"]⟩]) :=
  write_command_behavior ⟨true, true, some "D", ⟨some "D", 9600, false⟩⟩
    ["a", "b"] rfl rfl

/-- C6: for every event name and every sequence of subscriptions
(registered by folding `onEvent` over them in order), firing a hook
delivers the payload to exactly those listeners whose registered event
name equals the fired name, in registration order, and to no listener
registered under a different name; duplicate subscriptions each appear
independently in the delivery list. -/
theorem hook_bus_delivery {α β : Type} (subs : List (String × α))
    (name : String) (data : β) :
    fireHook (subs.foldl (fun hs s => onEvent hs s.1 s.2) []) name data =
      (subs.filter (fun s => s.1 == name)).map (fun s => (s.2, data)) := by
  rw [foldl_onEvent]
  simpa using fireHook_eq_filter subs name data

/-- C7: the invariant `ready = true → init = true` holds in the initial
context and is preserved by the set, open (including its asynchronous
completion, both outcomes), close and write handlers, in every branch. -/
theorem ready_implies_init_invariant :
    ConfigInv initialConfig ∧
    (∀ name cfg args, ConfigInv cfg → ConfigInv (setHandler name cfg args).1) ∧
    (∀ name cfg args oerr, ConfigInv cfg →
      ConfigInv (openHandler name cfg args oerr).1) ∧
    (∀ name cfg, ConfigInv cfg → ConfigInv (closeHandler name cfg).1) ∧
    (∀ name cfg args werr, ConfigInv cfg →
      ConfigInv (writeHandler name cfg args werr).1) := by
  refine ⟨by simp [ConfigInv, initialConfig], ?_, ?_, ?_, ?_⟩
  · intro name cfg args h
    rcases cfg with ⟨i, r, d, p⟩
    simp [ConfigInv, setHandler]
  · intro name cfg args oerr h
    rcases cfg with ⟨i, r, d, p⟩
    cases i <;> cases r <;> cases oerr <;> simp_all [ConfigInv, openHandler]
  · intro name cfg h
    rcases cfg with ⟨i, r, d, p⟩
    cases i <;> cases r <;> simp_all [ConfigInv, closeHandler]
  · intro name cfg args werr h
    rcases cfg with ⟨i, r, d, p⟩
    cases i <;> cases r <;> cases werr <;> simp_all [ConfigInv, writeHandler]

/-- C7 (witness): the invariant holds after setting a device on the
initial context. -/
theorem ready_implies_init_invariant_witness :
    ConfigInv (setHandler "set" initialConfig ["X"]).1 :=
  ready_implies_init_invariant.2.1 "set" initialConfig ["X"]
    ready_implies_init_invariant.1

/-- C8: for the fixed built-in registry, help with no argument responds
with status 0 and exactly one data line per registered primary command
name (`help`, `quit`, `set`, `close`, `open`, `write`), each line
containing that command's usage string — aliases joined with `/`, a
required parameter rendered `<name: type>`, an optional one
`[name: type]`, joined by single spaces (a command without parameters
gets an empty parameter string, hence the trailing space). -/
theorem help_lists_all_usages :
    helpHandler "help" COMMANDS [] =
      some [.respond ⟨some "help", 0,
        ["- Usage for help: help/h [command: string]",
         "- Usage for quit: quit/q/exit ",
         "- Usage for set: set <device: string>",
         "- Usage for close: close/stop ",
         "- Usage for open: open/start ",
         "- Usage for write: write/w/send <message: string>"]⟩] ∧
    getNames COMMANDS true = ["help", "quit", "set", "close", "open", "write"] ∧
    CommandParamaters.toSting ⟨[⟨"device", "string", true⟩]⟩ = "<device: string>" ∧
    CommandParamaters.toSting ⟨[⟨"command", "string", false⟩]⟩ = "[command: string]" := by
  decide

/-- C9: help with an argument that resolves to a registered command (by
any alias) responds with exactly that command's usage line; with an
argument that does not resolve, the lookup yields no descriptor, the
dereference of the absent descriptor is reached (the handler's result is
`none`), and no response — in particular no status-0 response — is
produced. -/
theorem help_with_argument (tok : String) (c : Command) :
    (getCommand COMMANDS tok = some c →
      helpHandler "help" COMMANDS [tok] =
        some [.respond ⟨some "help", 0,
          ["Usage for " ++ tok ++ ": " ++ c.toString]⟩]) ∧
    (getCommand COMMANDS tok = none →
      helpHandler "help" COMMANDS [tok] = none) := by
  constructor <;> intro h <;> simp [helpHandler, h]

/-- C9 (witness): `help stop` resolves the alias `stop` to the close
command and prints its usage; `help frobnicate` crashes (no response). -/
theorem help_with_argument_witness :
    helpHandler "help" COMMANDS ["stop"] =
      some [.respond ⟨some "help", 0, ["Usage for stop: close/stop "]⟩] ∧
    helpHandler "help" COMMANDS ["frobnicate"] = none :=
  ⟨(help_with_argument "stop" closeCmd).1 (by decide),
   (help_with_argument "frobnicate" closeCmd).2 (by decide)⟩

/-- C10: the line `write` with no arguments is dispatched to the write
command's handler with an empty argument list — the declared required
`<message: string>` parameter is not validated — and, in a context with
`init` and `ready` both set and a successful transport write, the
handler joins zero arguments into the empty string, passes the empty
string to the transport's write operation, responds with status 0 and
publishes the `"write"` hook with the empty message. -/
theorem write_empty_args (cfg : Config)
    (h1 : cfg.init = true) (h2 : cfg.ready = true) :
    process COMMANDS "write" = .run writeCmd [] ∧
    writeHandler "write" cfg [] none =
      (cfg, [.portWrite "", .hook "write" (.str ""),
             .respond ⟨some "write", 0, ["Message [] sent!"]⟩]) := by
  constructor
  · decide
  · simp [writeHandler, h1, h2]
    exact ⟨rfl, rfl⟩

/-- C10 (witness): the empty write at a concrete ready context. -/
theorem write_empty_args_witness :
    process COMMANDS "write" = .run writeCmd [] ∧
    writeHandler "write" ⟨true, true, some "D", ⟨some "D", 9600, false⟩⟩ [] none =
      (⟨true, true, some "D", ⟨some "D", 9600, false⟩⟩,
       [.portWrite "", .hook "write" (.str ""),
        .respond ⟨some "write", 0, ["Message [] sent!"]⟩]) :=
  write_empty_args ⟨true, true, some "D", ⟨some "D", 9600, false⟩⟩ rfl rfl
